import Mathlib

/-!
# Server-mode application bring-up (`v2/internal/app/server.go`)

A shallow embedding of `CreateApp` and of the main action that `App.Run`
registers with the command line runner; `cli.Run()` parses the flags and runs
that action, and parsing is outside this development: the action takes the
parsed flags as an argument.  The action is straight-line code
with early returns; every call it makes on a collaborator (web server,
service bus, logger, runtime, the five subsystems) is recorded, in program
order, as a `Step` of a trace.  What the collaborators return is an input
of the model (`Collaborators`), one value per call site, because each call
site is executed at most once per run of the action.
-/

namespace Wails

/-! ## Data model -/

/-- Kinds of objects the application refers to through pointers. -/
inductive Kind
  | options | logger | bindings | servicebus | webserver | callback
  | runtime | goruntime | db | log | dispatcher | binding | event | call
  deriving DecidableEq, Repr

/-- A Go pointer (or function value) to an object of kind `k`; address `0` is `nil`. -/
structure Ref (k : Kind) where
  addr : Nat
  deriving DecidableEq, Repr

/-- The nil pointer. -/
def Ref.nil {k : Kind} : Ref k := ⟨0⟩

/-- A non-nil value of Go's `error` interface; `Option GoError` is an `error`,
with `none` for `nil`. -/
structure GoError where
  msg : String
  deriving DecidableEq, Repr

/-- The five subsystems brought up by `Run`, in the order of the source. -/
inductive Subsystem
  | Logging | Dispatcher | Binding | Event | Call
  deriving DecidableEq, Repr

/-- The six constructors called by the main action, in the order of the source. -/
inductive Ctor
  | Runtime | Log | Dispatcher | Binding | Event | Call
  deriving DecidableEq, Repr

/-- The fields of `options.App` that `CreateApp` reads. -/
structure Options where
  Logger : Ref Kind.logger
  LogLevel : Nat
  OnStartup : Ref Kind.callback
  OnShutdown : Ref Kind.callback
  deriving DecidableEq, Repr

/-- The `App` struct.  `runtime` is assigned by `Run` (line 112). -/
structure App where
  appType : String
  binding : Ref Kind.binding
  call : Ref Kind.call
  event : Ref Kind.event
  log : Ref Kind.log
  options : Ref Kind.options
  bindings : Ref Kind.bindings
  logger : Ref Kind.logger
  dispatcher : Ref Kind.dispatcher
  servicebus : Ref Kind.servicebus
  webserver : Ref Kind.webserver
  runtime : Ref Kind.runtime
  debug : Bool
  startupCallback : Ref Kind.callback
  shutdownCallback : Ref Kind.callback
  deriving DecidableEq, Repr

/-- The packages `CreateApp` calls into (`options`, `logger`, `binding`,
`servicebus`, `webserver`) and the method `App.Init`, none of which is in
`server.go`: they are parameters of the model. -/
structure Packages where
  MergeDefaults : Options → Options
  loggerNew : Ref Kind.logger → Ref Kind.logger
  Bind : Nat
  NewBindings : Ref Kind.logger → Nat → Ref Kind.bindings
  servicebusNew : Ref Kind.logger → Ref Kind.servicebus
  NewWebServer : Ref Kind.logger → Ref Kind.webserver
  Init : App → App

/-- The struct literal built by `CreateApp` (lines 56-64), before `Init` runs.
Fields not named in the literal have Go's zero value. -/
def CreateApp.literal (pk : Packages) (appoptions : Options) : App :=
  let appoptions := pk.MergeDefaults appoptions
  let myLogger := pk.loggerNew appoptions.Logger
  { appType := "server"
    binding := Ref.nil
    call := Ref.nil
    event := Ref.nil
    log := Ref.nil
    options := Ref.nil
    bindings := pk.NewBindings myLogger pk.Bind
    logger := myLogger
    dispatcher := Ref.nil
    servicebus := pk.servicebusNew myLogger
    webserver := pk.NewWebServer myLogger
    runtime := Ref.nil
    debug := false
    startupCallback := appoptions.OnStartup
    shutdownCallback := appoptions.OnShutdown }

/-- `CreateApp` (lines 47-70): the literal, then `result.Init()`.  The error
it returns is always `nil`.  `myLogger.SetLogLevel` acts on the logger object
only and leaves the pointer as it is. -/
def CreateApp (pk : Packages) (appoptions : Options) : App × Option GoError :=
  (pk.Init (CreateApp.literal pk appoptions), none)

/-- The command line flags of `Run` with their defaults (lines 76-79). -/
structure Flags where
  port : Int := 8080
  ip : String := "localhost"
  SuppressLogging : Bool := false
  debugMode : Bool := false
  deriving DecidableEq, Repr

/-- What the collaborators return to the main action, one value per call
site.  A constructor returns a pointer and an `error`, as in Go. -/
structure Collaborators where
  URL : Ref Kind.webserver → String
  DB : Ref Kind.bindings → Ref Kind.db
  GoRuntime : Ref Kind.runtime → Ref Kind.goruntime
  NewRuntime : Ref Kind.runtime × Option GoError
  NewLog : Ref Kind.log × Option GoError
  NewDispatcher : Ref Kind.dispatcher × Option GoError
  NewBinding : Ref Kind.binding × Option GoError
  NewEvent : Ref Kind.event × Option GoError
  NewCall : Ref Kind.call × Option GoError
  /-- Modelled from the spec: the declaration of the subsystems' `Start`
  methods is not in `server.go`; by the spec a subsystem has
  `Start() -> error`.  This is the value each `Start` returns. -/
  StartResult : Subsystem → Option GoError
  webserverStart : Option GoError

/-- One call made by the main action on a collaborator.  The `Start` steps of
the five subsystems carry the value the call returned.  The two `Stop` steps
are calls the action could make on what it has started. -/
inductive Step
  | SetPort (ws : Ref Kind.webserver) (port : Int)
  | SetIP (ws : Ref Kind.webserver) (ip : String)
  | SetBindings (ws : Ref Kind.webserver) (b : Ref Kind.bindings)
  | PrintBanner
  | Info (lg : Ref Kind.logger) (format : String) (arg : String)
  | Debug (bus : Ref Kind.servicebus)
  | NewRuntime (bus : Ref Kind.servicebus) (lg : Ref Kind.logger) (cb : Ref Kind.callback)
  | RuntimeStart (r : Ref Kind.runtime)
  | ServiceBusStart (bus : Ref Kind.servicebus)
  | NewLog (bus : Ref Kind.servicebus) (lg : Ref Kind.logger)
  | LogStart (l : Ref Kind.log) (ret : Option GoError)
  | NewDispatcher (bus : Ref Kind.servicebus) (lg : Ref Kind.logger)
  | DispatcherStart (d : Ref Kind.dispatcher) (ret : Option GoError)
  | NewBinding (bus : Ref Kind.servicebus) (lg : Ref Kind.logger) (b : Ref Kind.bindings)
  | BindingStart (b : Ref Kind.binding) (ret : Option GoError)
  | NewEvent (bus : Ref Kind.servicebus) (lg : Ref Kind.logger)
  | EventStart (e : Ref Kind.event) (ret : Option GoError)
  | NewCall (bus : Ref Kind.servicebus) (lg : Ref Kind.logger) (db : Ref Kind.db)
      (rt : Ref Kind.goruntime)
  | CallStart (c : Ref Kind.call) (ret : Option GoError)
  | Emit (rt : Ref Kind.goruntime) (name : String)
  | WebServerStart (ws : Ref Kind.webserver) (d : Ref Kind.dispatcher) (e : Ref Kind.event)
  | Error (lg : Ref Kind.logger) (format : String) (err : GoError)
  | SubsystemStop (s : Subsystem)
  | ServiceBusStop (bus : Ref Kind.servicebus)
  deriving DecidableEq, Repr

/-- The result of running the main action: the application object as the
action left it, the calls it made, and the `error` it returned. -/
structure Outcome where
  app : App
  trace : List Step
  ret : Option GoError
  deriving DecidableEq, Repr

/-! ## The main action of `Run` (lines 91-162) -/

/-- Lines 93-105: transport configuration, banner and info log, bus tracing. -/
def configure (env : Collaborators) (fl : Flags) (a : App) : List Step :=
  let t := [Step.SetPort a.webserver fl.port,
            Step.SetIP a.webserver fl.ip,
            Step.SetBindings a.webserver a.bindings]
  let t := if !fl.SuppressLogging then
      t ++ [Step.PrintBanner, Step.Info a.logger "Running server at %s" (env.URL a.webserver)]
    else t
  if fl.debugMode then t ++ [Step.Debug a.servicebus] else t

/-- Lines 107-161: the bring-up proper, continuing the trace `t` of the calls
made so far. -/
def bringUp (env : Collaborators) (a : App) (t : List Step) : Outcome :=
  -- Start the runtime
  let t := t ++ [Step.NewRuntime a.servicebus a.logger a.startupCallback]
  match env.NewRuntime with
  | (_, some err) => ⟨a, t, some err⟩
  | (runtime, none) =>
  let a := { a with runtime := runtime }
  let t := t ++ [Step.RuntimeStart a.runtime]
  let t := t ++ [Step.ServiceBusStart a.servicebus]
  let t := t ++ [Step.NewLog a.servicebus a.logger]
  match env.NewLog with
  | (_, some err) => ⟨a, t, some err⟩
  | (log, none) =>
  let a := { a with log := log }
  let t := t ++ [Step.LogStart a.log (env.StartResult Subsystem.Logging)]
  let t := t ++ [Step.NewDispatcher a.servicebus a.logger]
  match env.NewDispatcher with
  | (_, some err) => ⟨a, t, some err⟩
  | (dispatcher, none) =>
  let a := { a with dispatcher := dispatcher }
  let t := t ++ [Step.DispatcherStart a.dispatcher (env.StartResult Subsystem.Dispatcher)]
  -- Start the binding subsystem
  let t := t ++ [Step.NewBinding a.servicebus a.logger a.bindings]
  match env.NewBinding with
  | (_, some err) => ⟨a, t, some err⟩
  | (binding, none) =>
  let a := { a with binding := binding }
  let t := t ++ [Step.BindingStart a.binding (env.StartResult Subsystem.Binding)]
  -- Start the eventing subsystem
  let t := t ++ [Step.NewEvent a.servicebus a.logger]
  match env.NewEvent with
  | (_, some err) => ⟨a, t, some err⟩
  | (event, none) =>
  let a := { a with event := event }
  let t := t ++ [Step.EventStart a.event (env.StartResult Subsystem.Event)]
  -- Start the call subsystem
  let t := t ++ [Step.NewCall a.servicebus a.logger (env.DB a.bindings)
                  (env.GoRuntime a.runtime)]
  match env.NewCall with
  | (_, some err) => ⟨a, t, some err⟩
  | (call, none) =>
  let a := { a with call := call }
  let t := t ++ [Step.CallStart a.call (env.StartResult Subsystem.Call)]
  -- Required so that the WailsInit functions are fired!
  let t := t ++ [Step.Emit (env.GoRuntime runtime) "wails:loaded"]
  let t := t ++ [Step.WebServerStart a.webserver dispatcher event]
  match env.webserverStart with
  | some err => ⟨a, t ++ [Step.Error a.logger "Webserver failed to start %s" err], some err⟩
  | none => ⟨a, t, none⟩

/-- The closure passed to `cli.Action` (lines 91-162), run on the parsed
flags `fl` and the application `a`: the configuration of lines 93-105, then
the bring-up of lines 107-161. -/
def mainAction (env : Collaborators) (fl : Flags) (a : App) : Outcome :=
  bringUp env a (configure env fl a)

/-! ## Observations on traces -/

/-- The subsystem whose `Start` a step is, if it is one. -/
def Step.started : Step → Option Subsystem
  | Step.LogStart _ _ => some Subsystem.Logging
  | Step.DispatcherStart _ _ => some Subsystem.Dispatcher
  | Step.BindingStart _ _ => some Subsystem.Binding
  | Step.EventStart _ _ => some Subsystem.Event
  | Step.CallStart _ _ => some Subsystem.Call
  | _ => none

/-- The constructor a step calls, if it calls one. -/
def Step.constructed : Step → Option Ctor
  | Step.NewRuntime _ _ _ => some Ctor.Runtime
  | Step.NewLog _ _ => some Ctor.Log
  | Step.NewDispatcher _ _ => some Ctor.Dispatcher
  | Step.NewBinding _ _ _ => some Ctor.Binding
  | Step.NewEvent _ _ => some Ctor.Event
  | Step.NewCall _ _ _ _ => some Ctor.Call
  | _ => none

/-- The subsystem whose `Stop` a step is, if it is one. -/
def Step.stopped : Step → Option Subsystem
  | Step.SubsystemStop s => some s
  | _ => none

/-- The subsystem whose `Start` a step is, with the value the call returned. -/
def Step.startResult : Step → Option (Subsystem × Option GoError)
  | Step.LogStart _ r => some (Subsystem.Logging, r)
  | Step.DispatcherStart _ r => some (Subsystem.Dispatcher, r)
  | Step.BindingStart _ r => some (Subsystem.Binding, r)
  | Step.EventStart _ r => some (Subsystem.Event, r)
  | Step.CallStart _ r => some (Subsystem.Call, r)
  | _ => none

/-- The ready signal: `Events.Emit("wails:loaded")`. -/
def Step.isReady : Step → Bool
  | Step.Emit _ name => name == "wails:loaded"
  | _ => false

/-- The transport start: `webserver.Start`. -/
def Step.isTransportStart : Step → Bool
  | Step.WebServerStart _ _ _ => true
  | _ => false

/-- The transport configuration calls `SetPort`, `SetIP`, `SetBindings`. -/
def Step.isTransportConfig : Step → Bool
  | Step.SetPort _ _ => true
  | Step.SetIP _ _ => true
  | Step.SetBindings _ _ => true
  | _ => false

/-- The bus tracing switch: `servicebus.Debug`. -/
def Step.isDebug : Step → Bool
  | Step.Debug _ => true
  | _ => false

/-- The call `runtime.Start`. -/
def Step.isRuntimeStart : Step → Bool
  | Step.RuntimeStart _ => true
  | _ => false

/-- The call `servicebus.Start`. -/
def Step.isBusStart : Step → Bool
  | Step.ServiceBusStart _ => true
  | _ => false

/-- The call `servicebus.Stop`. -/
def Step.isBusStop : Step → Bool
  | Step.ServiceBusStop _ => true
  | _ => false

/-- The `Start` of subsystem `s`. -/
def Step.starts (s : Subsystem) (x : Step) : Bool := x.started == some s

/-- A call of constructor `c`. -/
def Step.constructs (c : Ctor) (x : Step) : Bool := x.constructed == some c

/-- The callback handed over by a step, if it hands one over. -/
def Step.callback : Step → Option (Ref Kind.callback)
  | Step.NewRuntime _ _ cb => some cb
  | _ => none

/-- The runtime a `runtime.Start` step starts. -/
def Step.startedRuntime : Step → Option (Ref Kind.runtime)
  | Step.RuntimeStart r => some r
  | _ => none

/-- The dispatcher a `dispatcher.Start` step starts. -/
def Step.startedDispatcher : Step → Option (Ref Kind.dispatcher)
  | Step.DispatcherStart d _ => some d
  | _ => none

/-- The event subsystem an `event.Start` step starts. -/
def Step.startedEvent : Step → Option (Ref Kind.event)
  | Step.EventStart e _ => some e
  | _ => none

/-- The registry handed to the Binding subsystem's constructor. -/
def Step.bindingRegistry : Step → Option (Ref Kind.bindings)
  | Step.NewBinding _ _ b => some b
  | _ => none

/-- The receiver and arguments of `webserver.Start`. -/
def Step.transportArgs : Step →
    Option (Ref Kind.webserver × Ref Kind.dispatcher × Ref Kind.event)
  | Step.WebServerStart ws d e => some (ws, d, e)
  | _ => none

/-- The error handed to `logger.Error`. -/
def Step.loggedError : Step → Option GoError
  | Step.Error _ _ err => some err
  | _ => none

/-- A `Start` call: Runtime, service bus or one of the five subsystems. -/
def Step.isStart (s : Step) : Bool :=
  s.isRuntimeStart || s.isBusStart || s.started.isSome

/-- A `Stop` call. -/
def Step.isStop : Step → Bool
  | Step.SubsystemStop _ => true
  | Step.ServiceBusStop _ => true
  | _ => false

/-- The subsystem a constructor builds (`none` for the Runtime). -/
def Ctor.subsystem : Ctor → Option Subsystem
  | Ctor.Runtime => none
  | Ctor.Log => some Subsystem.Logging
  | Ctor.Dispatcher => some Subsystem.Dispatcher
  | Ctor.Binding => some Subsystem.Binding
  | Ctor.Event => some Subsystem.Event
  | Ctor.Call => some Subsystem.Call

/-- Position of a constructor call in the source. -/
def Ctor.index : Ctor → Nat
  | Ctor.Runtime => 0
  | Ctor.Log => 1
  | Ctor.Dispatcher => 2
  | Ctor.Binding => 3
  | Ctor.Event => 4
  | Ctor.Call => 5

/-- A step that constructs or starts one of the five subsystems. -/
def Step.isSubsystemStep (s : Step) : Bool :=
  s.started.isSome || (s.constructed.bind Ctor.subsystem).isSome

/-- The `error` returned by a constructor. -/
def Collaborators.ctorError (env : Collaborators) : Ctor → Option GoError
  | Ctor.Runtime => env.NewRuntime.2
  | Ctor.Log => env.NewLog.2
  | Ctor.Dispatcher => env.NewDispatcher.2
  | Ctor.Binding => env.NewBinding.2
  | Ctor.Event => env.NewEvent.2
  | Ctor.Call => env.NewCall.2

/-- The seven `error` values the action inspects (`if err != nil`), in the
order of the source. -/
def Collaborators.inspectedErrors (env : Collaborators) : List (Option GoError) :=
  [env.NewRuntime.2, env.NewLog.2, env.NewDispatcher.2, env.NewBinding.2, env.NewEvent.2,
   env.NewCall.2, env.webserverStart]

/-- The first error among the six constructors and `webserver.Start`, in
the order of the source; `none` when none fails. -/
def Collaborators.firstError (env : Collaborators) : Option GoError :=
  (env.inspectedErrors.filterMap id).head?

/-- The constructors in the order of the source. -/
def ctorOrder : List Ctor :=
  [Ctor.Runtime, Ctor.Log, Ctor.Dispatcher, Ctor.Binding, Ctor.Event, Ctor.Call]

/-- The constructors called along a trace, in order. -/
def constructedCtors (t : List Step) : List Ctor := t.filterMap Step.constructed

/-- The fixed bring-up order of the subsystems. -/
def bringUpOrder : List Subsystem :=
  [Subsystem.Logging, Subsystem.Dispatcher, Subsystem.Binding, Subsystem.Event, Subsystem.Call]

/-- The subsystems started along a trace, in order. -/
def startedSubsystems (t : List Step) : List Subsystem := t.filterMap Step.started

/-- The subsystems stopped along a trace, in order. -/
def stoppedSubsystems (t : List Step) : List Subsystem := t.filterMap Step.stopped

/-- Every step of `t` that satisfies `q` comes after a step that satisfies `p`. -/
def Precedes (p q : Step → Bool) (t : List Step) : Prop :=
  ∀ l₁ s l₂, t = l₁ ++ s :: l₂ → q s = true → ∃ x ∈ l₁, p x = true

/-- Executable form of `Precedes`. -/
def precedesB (p q : Step → Bool) : List Step → Bool
  | [] => true
  | s :: t => !q s && (p s || precedesB p q t)

/-- The calls of lines 108-156 in program order, as made when nothing fails. -/
def bringUpScript (env : Collaborators) (a : App) : List Step :=
  [Step.NewRuntime a.servicebus a.logger a.startupCallback,
   Step.RuntimeStart env.NewRuntime.1,
   Step.ServiceBusStart a.servicebus,
   Step.NewLog a.servicebus a.logger,
   Step.LogStart env.NewLog.1 (env.StartResult Subsystem.Logging),
   Step.NewDispatcher a.servicebus a.logger,
   Step.DispatcherStart env.NewDispatcher.1 (env.StartResult Subsystem.Dispatcher),
   Step.NewBinding a.servicebus a.logger a.bindings,
   Step.BindingStart env.NewBinding.1 (env.StartResult Subsystem.Binding),
   Step.NewEvent a.servicebus a.logger,
   Step.EventStart env.NewEvent.1 (env.StartResult Subsystem.Event),
   Step.NewCall a.servicebus a.logger (env.DB a.bindings) (env.GoRuntime env.NewRuntime.1),
   Step.CallStart env.NewCall.1 (env.StartResult Subsystem.Call),
   Step.Emit (env.GoRuntime env.NewRuntime.1) "wails:loaded",
   Step.WebServerStart a.webserver env.NewDispatcher.1 env.NewEvent.1]

/-! ## Sample inputs -/

/-- An application object as `CreateApp` leaves it, with distinct addresses. -/
def sampleApp : App :=
  { appType := "server"
    binding := Ref.nil, call := Ref.nil, event := Ref.nil, log := Ref.nil
    options := Ref.nil
    bindings := ⟨11⟩, logger := ⟨12⟩
    dispatcher := Ref.nil
    servicebus := ⟨13⟩, webserver := ⟨14⟩
    runtime := Ref.nil
    debug := false
    startupCallback := ⟨15⟩, shutdownCallback := ⟨16⟩ }

/-- Collaborators that all succeed. -/
def sampleEnv : Collaborators :=
  { URL := fun _ => "http://localhost:8080"
    DB := fun _ => ⟨21⟩
    GoRuntime := fun _ => ⟨22⟩
    NewRuntime := (⟨31⟩, none)
    NewLog := (⟨32⟩, none)
    NewDispatcher := (⟨33⟩, none)
    NewBinding := (⟨34⟩, none)
    NewEvent := (⟨35⟩, none)
    NewCall := (⟨36⟩, none)
    StartResult := fun _ => none
    webserverStart := none }

/-- Packages whose `Init` leaves the application object as it is. -/
def samplePackages : Packages :=
  { MergeDefaults := id
    loggerNew := id
    Bind := 0
    NewBindings := fun _ _ => ⟨11⟩
    servicebusNew := fun _ => ⟨13⟩
    NewWebServer := fun _ => ⟨14⟩
    Init := id }

/-- Application options with distinct callbacks. -/
def sampleOptions : Options :=
  { Logger := ⟨12⟩, LogLevel := 0, OnStartup := ⟨15⟩, OnShutdown := ⟨16⟩ }

/-- Collaborators whose Logging subsystem reports an error from `Start`;
everything else succeeds. -/
def logStartFails : Collaborators :=
  { sampleEnv with
    StartResult := fun s =>
      match s with
      | Subsystem.Logging => some ⟨"log start failed"⟩
      | _ => none }

/-- Collaborators whose Dispatcher constructor fails. -/
def dispatcherFails : Collaborators :=
  { sampleEnv with NewDispatcher := (Ref.nil, some ⟨"no dispatcher"⟩) }

/-- Collaborators whose web server fails to start. -/
def webserverFails : Collaborators :=
  { sampleEnv with webserverStart := some ⟨"address in use"⟩ }

/-! ## Lemmas on traces -/

theorem precedesB_iff (p q : Step → Bool) (t : List Step) :
    precedesB p q t = true ↔ Precedes p q t := by
  induction t with
  | nil =>
    simp only [precedesB, Precedes, true_iff]
    intro l₁ s l₂ h
    simp at h
  | cons a t ih =>
    simp only [precedesB, Bool.and_eq_true, Bool.not_eq_true', Bool.or_eq_true, ih]
    constructor
    · rintro ⟨hq, hp⟩ l₁ s l₂ h hs
      cases l₁ with
      | nil =>
        simp only [List.nil_append, List.cons.injEq] at h
        rw [← h.1, hq] at hs
        cases hs
      | cons b l₁ =>
        simp only [List.cons_append, List.cons.injEq] at h
        rcases hp with hp | hp
        · exact ⟨b, List.mem_cons_self _ _, h.1 ▸ hp⟩
        · obtain ⟨x, hx, hpx⟩ := hp l₁ s l₂ h.2 hs
          exact ⟨x, List.mem_cons_of_mem _ hx, hpx⟩
    · intro h
      have hq : q a = false := by
        cases hqa : q a with
        | false => rfl
        | true =>
          obtain ⟨x, hx, _⟩ := h [] a t rfl hqa
          cases hx
      refine ⟨hq, ?_⟩
      cases hpa : p a with
      | true => exact Or.inl rfl
      | false =>
        right
        intro l₁ s l₂ ht hs
        obtain ⟨x, hx, hpx⟩ := h (a :: l₁) s l₂ (by rw [ht]; rfl) hs
        rcases List.mem_cons.1 hx with rfl | hx
        · rw [hpa] at hpx
          cases hpx
        · exact ⟨x, hx, hpx⟩

theorem bringUp_cases (P : Outcome → Prop) (env : Collaborators) (a : App) (t : List Step)
    (hRuntime : ∀ err, env.NewRuntime.2 = some err →
      P ⟨a, t ++ (bringUpScript env a).take 1, some err⟩)
    (hLog : ∀ err, env.NewRuntime.2 = none → env.NewLog.2 = some err →
      P ⟨{ a with runtime := env.NewRuntime.1 },
         t ++ (bringUpScript env a).take 4, some err⟩)
    (hDispatcher : ∀ err, env.NewRuntime.2 = none → env.NewLog.2 = none →
      env.NewDispatcher.2 = some err →
      P ⟨{ a with runtime := env.NewRuntime.1, log := env.NewLog.1 },
         t ++ (bringUpScript env a).take 6, some err⟩)
    (hBinding : ∀ err, env.NewRuntime.2 = none → env.NewLog.2 = none →
      env.NewDispatcher.2 = none → env.NewBinding.2 = some err →
      P ⟨{ a with runtime := env.NewRuntime.1, log := env.NewLog.1,
                  dispatcher := env.NewDispatcher.1 },
         t ++ (bringUpScript env a).take 8, some err⟩)
    (hEvent : ∀ err, env.NewRuntime.2 = none → env.NewLog.2 = none →
      env.NewDispatcher.2 = none → env.NewBinding.2 = none → env.NewEvent.2 = some err →
      P ⟨{ a with runtime := env.NewRuntime.1, log := env.NewLog.1,
                  dispatcher := env.NewDispatcher.1, binding := env.NewBinding.1 },
         t ++ (bringUpScript env a).take 10, some err⟩)
    (hCall : ∀ err, env.NewRuntime.2 = none → env.NewLog.2 = none →
      env.NewDispatcher.2 = none → env.NewBinding.2 = none → env.NewEvent.2 = none →
      env.NewCall.2 = some err →
      P ⟨{ a with runtime := env.NewRuntime.1, log := env.NewLog.1,
                  dispatcher := env.NewDispatcher.1, binding := env.NewBinding.1,
                  event := env.NewEvent.1 },
         t ++ (bringUpScript env a).take 12, some err⟩)
    (hWeb : ∀ err, env.NewRuntime.2 = none → env.NewLog.2 = none →
      env.NewDispatcher.2 = none → env.NewBinding.2 = none → env.NewEvent.2 = none →
      env.NewCall.2 = none → env.webserverStart = some err →
      P ⟨{ a with runtime := env.NewRuntime.1, log := env.NewLog.1,
                  dispatcher := env.NewDispatcher.1, binding := env.NewBinding.1,
                  event := env.NewEvent.1, call := env.NewCall.1 },
         t ++ bringUpScript env a ++
           [Step.Error a.logger "Webserver failed to start %s" err], some err⟩)
    (hOk : env.NewRuntime.2 = none → env.NewLog.2 = none →
      env.NewDispatcher.2 = none → env.NewBinding.2 = none → env.NewEvent.2 = none →
      env.NewCall.2 = none → env.webserverStart = none →
      P ⟨{ a with runtime := env.NewRuntime.1, log := env.NewLog.1,
                  dispatcher := env.NewDispatcher.1, binding := env.NewBinding.1,
                  event := env.NewEvent.1, call := env.NewCall.1 },
         t ++ bringUpScript env a, none⟩) :
    P (bringUp env a t) := by
  obtain ⟨url, db, grt, ⟨r, er⟩, ⟨l, el⟩, ⟨d, ed⟩, ⟨b, eb⟩, ⟨e, ee⟩, ⟨c, ec⟩, sr, ws⟩ := env
  cases er with
  | some er => simpa [bringUp, bringUpScript] using hRuntime er rfl
  | none =>
  cases el with
  | some el => simpa [bringUp, bringUpScript] using hLog el rfl rfl
  | none =>
  cases ed with
  | some ed => simpa [bringUp, bringUpScript] using hDispatcher ed rfl rfl rfl
  | none =>
  cases eb with
  | some eb => simpa [bringUp, bringUpScript] using hBinding eb rfl rfl rfl rfl
  | none =>
  cases ee with
  | some ee => simpa [bringUp, bringUpScript] using hEvent ee rfl rfl rfl rfl rfl
  | none =>
  cases ec with
  | some ec => simpa [bringUp, bringUpScript] using hCall ec rfl rfl rfl rfl rfl rfl
  | none =>
  cases ws with
  | some ws => simpa [bringUp, bringUpScript] using hWeb ws rfl rfl rfl rfl rfl rfl rfl
  | none => simpa [bringUp, bringUpScript] using hOk rfl rfl rfl rfl rfl rfl rfl

theorem allCtors_iff (env : Collaborators) :
    (∀ c, env.ctorError c = none) ↔
      env.NewRuntime.2 = none ∧ env.NewLog.2 = none ∧ env.NewDispatcher.2 = none ∧
      env.NewBinding.2 = none ∧ env.NewEvent.2 = none ∧ env.NewCall.2 = none := by
  constructor
  · intro h
    exact ⟨h Ctor.Runtime, h Ctor.Log, h Ctor.Dispatcher, h Ctor.Binding, h Ctor.Event,
      h Ctor.Call⟩
  · rintro ⟨h0, h1, h2, h3, h4, h5⟩ c
    cases c <;> simp [Collaborators.ctorError, *]

theorem count_bringUpOrder_le (l : List Subsystem) (h : l <+: bringUpOrder) (s : Subsystem) :
    l.count s ≤ 1 := by
  refine le_trans (List.Sublist.count_le h.sublist s) ?_
  cases s <;> decide

theorem forall_mem_eq_of_subsingleton {α : Type} (x : α) (l : List α)
    (h : l = [] ∨ l = [x]) : ∀ y ∈ l, y = x := by
  rcases h with h | h <;> subst h <;> simp

theorem bringUp_ret (env : Collaborators) (a : App) (t : List Step) :
    (bringUp env a t).ret = env.firstError := by
  refine bringUp_cases (fun o => o.ret = env.firstError) env a t ?_ ?_ ?_ ?_ ?_ ?_ ?_ ?_ <;>
    intros <;> simp [Collaborators.firstError, Collaborators.inspectedErrors, *]

theorem bringUp_trace (env : Collaborators) (a : App) (t : List Step) :
    (bringUp env a t).trace = t ++ (bringUp env a []).trace := by
  obtain ⟨url, db, grt, ⟨r, er⟩, ⟨l, el⟩, ⟨d, ed⟩, ⟨b, eb⟩, ⟨e, ee⟩, ⟨c, ec⟩, sr, ws⟩ := env
  cases er <;> [skip; simp [bringUp]]
  cases el <;> [skip; simp [bringUp]]
  cases ed <;> [skip; simp [bringUp]]
  cases eb <;> [skip; simp [bringUp]]
  cases ee <;> [skip; simp [bringUp]]
  cases ec <;> [skip; simp [bringUp]]
  cases ws <;> simp [bringUp]

theorem prefix_before (q : Step → Bool) (pre : List Step) (hq : ∀ x ∈ pre, q x = false) :
    ∀ t, pre <+: t → ∀ l₁ s l₂, t = l₁ ++ s :: l₂ → q s = true → pre <+: l₁ := by
  induction pre with
  | nil => intro t _ l₁ s l₂ _ _; exact List.nil_prefix
  | cons x pre ih =>
    rintro t ⟨r, rfl⟩ l₁ s l₂ ht hs
    cases l₁ with
    | nil =>
      simp only [List.cons_append, List.nil_append, List.cons.injEq] at ht
      rw [← ht.1, hq x (List.mem_cons_self _ _)] at hs
      cases hs
    | cons y l₁ =>
      simp only [List.cons_append, List.cons.injEq] at ht
      obtain ⟨rfl, ht⟩ := ht
      have h := ih (fun z hz => hq z (List.mem_cons_of_mem _ hz)) (pre ++ r)
        (List.prefix_append _ _) l₁ s l₂ ht hs
      exact (List.cons_prefix_cons).2 ⟨rfl, h⟩

/-! ## Bring-up order -/

/-- C1: whichever constructors fail, the subsystem `Start` calls made by the
main action form a prefix of Logging, Dispatcher, Binding, Event, Call, no
subsystem is started twice, and when all six constructors succeed the `Start`
calls are exactly that sequence. -/
theorem start_order (env : Collaborators) (fl : Flags) (a : App) :
    startedSubsystems (mainAction env fl a).trace <+: bringUpOrder ∧
    (∀ s, (startedSubsystems (mainAction env fl a).trace).count s ≤ 1) ∧
    ((∀ c, env.ctorError c = none) →
      startedSubsystems (mainAction env fl a).trace = bringUpOrder) := by
  have key : startedSubsystems (mainAction env fl a).trace <+: bringUpOrder ∧
      ((∀ c, env.ctorError c = none) →
        startedSubsystems (mainAction env fl a).trace = bringUpOrder) := by
    rw [allCtors_iff]
    obtain ⟨port, ip, sl, dm⟩ := fl
    cases sl <;> cases dm <;>
      refine bringUp_cases (fun o => startedSubsystems o.trace <+: bringUpOrder ∧
        (env.NewRuntime.2 = none ∧ env.NewLog.2 = none ∧ env.NewDispatcher.2 = none ∧
          env.NewBinding.2 = none ∧ env.NewEvent.2 = none ∧ env.NewCall.2 = none →
          startedSubsystems o.trace = bringUpOrder))
        env a _ ?_ ?_ ?_ ?_ ?_ ?_ ?_ ?_ <;>
      intros <;> refine ⟨⟨_, rfl⟩, fun h => ?_⟩ <;>
      first
      | rfl
      | (exfalso; simp_all)
  exact ⟨key.1, count_bringUpOrder_le _ key.1, key.2⟩

/-- C1, at collaborators that all succeed: the five subsystems are started in
the fixed order. -/
theorem start_order_witness :
    startedSubsystems (mainAction sampleEnv {} sampleApp).trace = bringUpOrder :=
  (start_order sampleEnv {} sampleApp).2.2 (by intro c; cases c <;> rfl)

/-- C2: whenever the main action starts the transport, each of the five
subsystems has been started before it, and the ready signal has been emitted
exactly once, after the Call subsystem was started and before the transport
start. -/
theorem transport_after_ready (env : Collaborators) (fl : Flags) (a : App)
    (h : (mainAction env fl a).trace.any Step.isTransportStart = true) :
    (∀ s, Precedes (Step.starts s) Step.isTransportStart (mainAction env fl a).trace) ∧
    (mainAction env fl a).trace.countP Step.isReady = 1 ∧
    Precedes (Step.starts Subsystem.Call) Step.isReady (mainAction env fl a).trace ∧
    Precedes Step.isReady Step.isTransportStart (mainAction env fl a).trace := by
  simp only [← precedesB_iff]
  revert h
  obtain ⟨port, ip, sl, dm⟩ := fl
  cases sl <;> cases dm <;>
    refine bringUp_cases (fun o => o.trace.any Step.isTransportStart = true →
      (∀ s, precedesB (Step.starts s) Step.isTransportStart o.trace = true) ∧
      o.trace.countP Step.isReady = 1 ∧
      precedesB (Step.starts Subsystem.Call) Step.isReady o.trace = true ∧
      precedesB Step.isReady Step.isTransportStart o.trace = true)
      env a _ ?_ ?_ ?_ ?_ ?_ ?_ ?_ ?_ <;>
    intros <;> intro h <;>
    first
    | exact absurd h Bool.false_ne_true
    | exact ⟨fun s => by cases s <;> rfl, rfl, rfl, rfl⟩

/-- C2, at collaborators that all succeed: the transport is started, after
the five subsystems and the single ready signal. -/
theorem transport_after_ready_witness :
    (mainAction sampleEnv {} sampleApp).trace.any Step.isTransportStart = true ∧
    (mainAction sampleEnv {} sampleApp).trace.countP Step.isReady = 1 ∧
    Precedes (Step.starts Subsystem.Call) Step.isReady
      (mainAction sampleEnv {} sampleApp).trace ∧
    Precedes Step.isReady Step.isTransportStart (mainAction sampleEnv {} sampleApp).trace :=
  ⟨by decide, (transport_after_ready sampleEnv {} sampleApp (by decide)).2⟩

/-! ## Runtime and service bus -/

/-- C3: the struct literal of `CreateApp` stores the `OnStartup` option as the
startup callback, and `CreateApp` returns it so when `Init` leaves that field
alone; the main action calls the Runtime constructor once, with the
application's startup callback, and that is the only callback any call is
handed; when the construction succeeds the Runtime it returned is started
exactly once, and every construction or start of a subsystem comes after that
start. -/
theorem runtime_first (pk : Packages) (appoptions : Options)
    (env : Collaborators) (fl : Flags) (a : App) :
    (CreateApp.literal pk appoptions).startupCallback =
      (pk.MergeDefaults appoptions).OnStartup ∧
    ((∀ x, (pk.Init x).startupCallback = x.startupCallback) →
      (CreateApp pk appoptions).1.startupCallback = (pk.MergeDefaults appoptions).OnStartup) ∧
    Step.NewRuntime a.servicebus a.logger a.startupCallback ∈ (mainAction env fl a).trace ∧
    (mainAction env fl a).trace.countP (Step.constructs Ctor.Runtime) = 1 ∧
    (mainAction env fl a).trace.filterMap Step.callback = [a.startupCallback] ∧
    (env.NewRuntime.2 = none →
      (mainAction env fl a).trace.filterMap Step.startedRuntime = [env.NewRuntime.1] ∧
      Precedes Step.isRuntimeStart Step.isSubsystemStep (mainAction env fl a).trace) := by
  refine ⟨rfl, fun hInit => by simp [CreateApp, hInit, CreateApp.literal], ?_⟩
  simp only [← precedesB_iff]
  obtain ⟨port, ip, sl, dm⟩ := fl
  cases sl <;> cases dm <;>
    refine bringUp_cases (fun o =>
      Step.NewRuntime a.servicebus a.logger a.startupCallback ∈ o.trace ∧
      o.trace.countP (Step.constructs Ctor.Runtime) = 1 ∧
      o.trace.filterMap Step.callback = [a.startupCallback] ∧
      (env.NewRuntime.2 = none →
        o.trace.filterMap Step.startedRuntime = [env.NewRuntime.1] ∧
        precedesB Step.isRuntimeStart Step.isSubsystemStep o.trace = true))
      env a _ ?_ ?_ ?_ ?_ ?_ ?_ ?_ ?_ <;>
    intros <;> refine ⟨by simp [configure, bringUpScript], rfl, rfl, fun h => ?_⟩ <;>
    first
    | exact ⟨rfl, rfl⟩
    | (exfalso; simp_all)

/-- C3, at an `Init` that changes nothing and collaborators that all succeed. -/
theorem runtime_first_witness :
    (CreateApp samplePackages sampleOptions).1.startupCallback = ⟨15⟩ ∧
    Step.NewRuntime ⟨13⟩ ⟨12⟩ ⟨15⟩ ∈ (mainAction sampleEnv {} sampleApp).trace ∧
    (mainAction sampleEnv {} sampleApp).trace.filterMap Step.startedRuntime = [⟨31⟩] ∧
    Precedes Step.isRuntimeStart Step.isSubsystemStep
      (mainAction sampleEnv {} sampleApp).trace :=
  have h := runtime_first samplePackages sampleOptions sampleEnv {} sampleApp
  ⟨h.2.1 (fun _ => rfl), h.2.2.1, (h.2.2.2.2.2 rfl).1, (h.2.2.2.2.2 rfl).2⟩

/-- C10: when the Runtime constructor succeeds, the main action starts the
service bus exactly once, after the Runtime start and before every
construction or start of a subsystem; no execution stops the bus. -/
theorem bus_started_once (env : Collaborators) (fl : Flags) (a : App) :
    (env.NewRuntime.2 = none →
      (mainAction env fl a).trace.countP Step.isBusStart = 1 ∧
      Step.ServiceBusStart a.servicebus ∈ (mainAction env fl a).trace ∧
      Precedes Step.isRuntimeStart Step.isBusStart (mainAction env fl a).trace ∧
      Precedes Step.isBusStart Step.isSubsystemStep (mainAction env fl a).trace) ∧
    (mainAction env fl a).trace.any Step.isBusStop = false := by
  simp only [← precedesB_iff]
  obtain ⟨port, ip, sl, dm⟩ := fl
  cases sl <;> cases dm <;>
    refine bringUp_cases (fun o =>
      (env.NewRuntime.2 = none →
        o.trace.countP Step.isBusStart = 1 ∧
        Step.ServiceBusStart a.servicebus ∈ o.trace ∧
        precedesB Step.isRuntimeStart Step.isBusStart o.trace = true ∧
        precedesB Step.isBusStart Step.isSubsystemStep o.trace = true) ∧
      o.trace.any Step.isBusStop = false)
      env a _ ?_ ?_ ?_ ?_ ?_ ?_ ?_ ?_ <;>
    intros <;> refine ⟨fun _ => ?_, rfl⟩ <;>
    first
    | exact ⟨rfl, by simp [configure, bringUpScript], rfl, rfl⟩
    | (exfalso; simp_all)

/-- C10, at collaborators that all succeed. -/
theorem bus_started_once_witness :
    (mainAction sampleEnv {} sampleApp).trace.countP Step.isBusStart = 1 ∧
    Step.ServiceBusStart ⟨13⟩ ∈ (mainAction sampleEnv {} sampleApp).trace ∧
    Precedes Step.isRuntimeStart Step.isBusStart (mainAction sampleEnv {} sampleApp).trace ∧
    Precedes Step.isBusStart Step.isSubsystemStep (mainAction sampleEnv {} sampleApp).trace :=
  (bus_started_once sampleEnv {} sampleApp).1 rfl

/-! ## Failures -/

/-- C4: if a constructor is the first to return an error `e`, the main action
returns exactly `e`, and the failed constructor call is its last step: the
constructors called are those up to the failed one, the subsystems started are
those constructed before it, the ready signal is not emitted and the transport
is not started. -/
theorem first_ctor_failure (env : Collaborators) (fl : Flags) (a : App) (c : Ctor)
    (e : GoError)
    (hprev : ∀ k, k.index < c.index → env.ctorError k = none)
    (hfail : env.ctorError c = some e) :
    (mainAction env fl a).ret = some e ∧
    (mainAction env fl a).trace.getLast?.bind Step.constructed = some c ∧
    constructedCtors (mainAction env fl a).trace = ctorOrder.take (c.index + 1) ∧
    startedSubsystems (mainAction env fl a).trace = bringUpOrder.take (c.index - 1) ∧
    (mainAction env fl a).trace.any Step.isReady = false ∧
    (mainAction env fl a).trace.any Step.isTransportStart = false := by
  have h0 := hprev Ctor.Runtime
  have h1 := hprev Ctor.Log
  have h2 := hprev Ctor.Dispatcher
  have h3 := hprev Ctor.Binding
  have h4 := hprev Ctor.Event
  have h5 := hprev Ctor.Call
  clear hprev
  obtain ⟨port, ip, sl, dm⟩ := fl
  cases c <;> simp [Ctor.index, Collaborators.ctorError] at h0 h1 h2 h3 h4 h5 hfail <;>
    cases sl <;> cases dm <;>
    refine bringUp_cases (fun o => o.ret = some e ∧
      o.trace.getLast?.bind Step.constructed = some _ ∧
      constructedCtors o.trace = ctorOrder.take (Ctor.index _ + 1) ∧
      startedSubsystems o.trace = bringUpOrder.take (Ctor.index _ - 1) ∧
      o.trace.any Step.isReady = false ∧
      o.trace.any Step.isTransportStart = false)
      env a _ ?_ ?_ ?_ ?_ ?_ ?_ ?_ ?_ <;>
    intros <;> rename_i hs <;>
    first
    | (rw [hfail] at hs; cases hs; exact ⟨rfl, rfl, rfl, rfl, rfl, rfl⟩)
    | (exfalso; simp_all)

/-- C4, at a Dispatcher constructor that fails after Runtime and Log
succeeded. -/
theorem first_ctor_failure_witness :
    (mainAction dispatcherFails {} sampleApp).ret = some ⟨"no dispatcher"⟩ ∧
    (mainAction dispatcherFails {} sampleApp).trace.getLast?.bind Step.constructed =
      some Ctor.Dispatcher ∧
    constructedCtors (mainAction dispatcherFails {} sampleApp).trace =
      [Ctor.Runtime, Ctor.Log, Ctor.Dispatcher] ∧
    startedSubsystems (mainAction dispatcherFails {} sampleApp).trace =
      [Subsystem.Logging] ∧
    (mainAction dispatcherFails {} sampleApp).trace.any Step.isReady = false ∧
    (mainAction dispatcherFails {} sampleApp).trace.any Step.isTransportStart = false :=
  first_ctor_failure dispatcherFails {} sampleApp Ctor.Dispatcher ⟨"no dispatcher"⟩
    (by intro k hk; cases k <;> first | rfl | exact absurd hk (by decide)) rfl

/-- C9: the main action returns `nil` exactly when the six constructors and
`webserver.Start` all succeed; when the constructors succeed and
`webserver.Start` fails with `e`, the action logs one error, carrying `e`, as
its last step and returns exactly `e`. -/
theorem result_nil_iff (env : Collaborators) (fl : Flags) (a : App) :
    ((mainAction env fl a).ret = none ↔
      (∀ c, env.ctorError c = none) ∧ env.webserverStart = none) ∧
    (∀ e, (∀ c, env.ctorError c = none) → env.webserverStart = some e →
      (mainAction env fl a).ret = some e ∧
      (mainAction env fl a).trace.filterMap Step.loggedError = [e] ∧
      (mainAction env fl a).trace.getLast? =
        some (Step.Error a.logger "Webserver failed to start %s" e)) := by
  simp only [allCtors_iff]
  obtain ⟨port, ip, sl, dm⟩ := fl
  cases sl <;> cases dm <;>
    refine bringUp_cases (fun o =>
      (o.ret = none ↔
        (env.NewRuntime.2 = none ∧ env.NewLog.2 = none ∧ env.NewDispatcher.2 = none ∧
          env.NewBinding.2 = none ∧ env.NewEvent.2 = none ∧ env.NewCall.2 = none) ∧
        env.webserverStart = none) ∧
      (∀ e, (env.NewRuntime.2 = none ∧ env.NewLog.2 = none ∧ env.NewDispatcher.2 = none ∧
          env.NewBinding.2 = none ∧ env.NewEvent.2 = none ∧ env.NewCall.2 = none) →
        env.webserverStart = some e →
        o.ret = some e ∧
        o.trace.filterMap Step.loggedError = [e] ∧
        o.trace.getLast? = some (Step.Error a.logger "Webserver failed to start %s" e)))
      env a _ ?_ ?_ ?_ ?_ ?_ ?_ ?_ ?_ <;>
    intros <;> rename_i hs <;>
    refine ⟨by simp [*], fun e hc hw => ?_⟩ <;>
    first
    | (rw [hs] at hw; cases hw; exact ⟨rfl, rfl, rfl⟩)
    | (exfalso; simp_all)

/-- C9, at a web server that fails to start after a complete bring-up. -/
theorem result_nil_iff_witness :
    (mainAction webserverFails {} sampleApp).ret = some ⟨"address in use"⟩ ∧
    (mainAction webserverFails {} sampleApp).trace.filterMap Step.loggedError =
      [⟨"address in use"⟩] ∧
    (mainAction webserverFails {} sampleApp).trace.getLast? =
      some (Step.Error ⟨12⟩ "Webserver failed to start %s" ⟨"address in use"⟩) :=
  (result_nil_iff webserverFails {} sampleApp).2 ⟨"address in use"⟩
    (by intro c; cases c <;> rfl) rfl

/-! ## Flags and wiring -/

/-- C7: the main action switches bus tracing on exactly when the debug-mode
flag is set, and then once, on the application's bus; changing only that flag
changes nothing else: the other calls and the result are the same. -/
theorem debug_only_tracing (env : Collaborators) (fl : Flags) (a : App) :
    (mainAction env fl a).trace.any Step.isDebug = fl.debugMode ∧
    (mainAction env fl a).trace.filter Step.isDebug =
      (if fl.debugMode then [Step.Debug a.servicebus] else []) ∧
    ∀ b, (mainAction env { fl with debugMode := b } a).trace.filter (fun s => !s.isDebug) =
        (mainAction env fl a).trace.filter (fun s => !s.isDebug) ∧
      (mainAction env { fl with debugMode := b } a).ret = (mainAction env fl a).ret := by
  refine ⟨?_, ?_, fun b => ⟨?_, ?_⟩⟩
  · obtain ⟨port, ip, sl, dm⟩ := fl
    cases sl <;> cases dm <;>
      refine bringUp_cases (fun o => o.trace.any Step.isDebug = _)
        env a _ ?_ ?_ ?_ ?_ ?_ ?_ ?_ ?_ <;>
      intros <;> rfl
  · obtain ⟨port, ip, sl, dm⟩ := fl
    cases sl <;> cases dm <;>
      refine bringUp_cases (fun o => o.trace.filter Step.isDebug = _)
        env a _ ?_ ?_ ?_ ?_ ?_ ?_ ?_ ?_ <;>
      intros <;> rfl
  · simp only [mainAction]
    rw [bringUp_trace env a (configure env fl a), bringUp_trace env a (configure env _ a),
      List.filter_append, List.filter_append]
    congr 1
    obtain ⟨port, ip, sl, dm⟩ := fl
    cases sl <;> cases dm <;> cases b <;> rfl
  · simp only [mainAction, bringUp_ret]

/-- C8: for every port and address, the first three calls of the main action
configure the transport with that port, that address and the application's
binding registry, so that all three come before any `Start`; no other
configuration call is made; the Binding subsystem is constructed with the same
registry; and when the transport is started it is the application's web
server, given the Dispatcher and Event instances that the constructors
returned without error and that were started earlier in the same execution. -/
theorem transport_wiring (env : Collaborators) (fl : Flags) (a : App) :
    [Step.SetPort a.webserver fl.port, Step.SetIP a.webserver fl.ip,
      Step.SetBindings a.webserver a.bindings] <+: (mainAction env fl a).trace ∧
    (∀ l₁ s l₂, (mainAction env fl a).trace = l₁ ++ s :: l₂ → s.isStart = true →
      [Step.SetPort a.webserver fl.port, Step.SetIP a.webserver fl.ip,
        Step.SetBindings a.webserver a.bindings] <+: l₁) ∧
    (mainAction env fl a).trace.filter Step.isTransportConfig =
      [Step.SetPort a.webserver fl.port, Step.SetIP a.webserver fl.ip,
        Step.SetBindings a.webserver a.bindings] ∧
    (∀ b ∈ (mainAction env fl a).trace.filterMap Step.bindingRegistry, b = a.bindings) ∧
    ((mainAction env fl a).trace.any Step.isTransportStart = true →
      (mainAction env fl a).trace.filterMap Step.transportArgs =
        [(a.webserver, env.NewDispatcher.1, env.NewEvent.1)] ∧
      env.NewDispatcher.2 = none ∧ env.NewEvent.2 = none ∧
      (mainAction env fl a).trace.filterMap Step.startedDispatcher = [env.NewDispatcher.1] ∧
      (mainAction env fl a).trace.filterMap Step.startedEvent = [env.NewEvent.1] ∧
      Precedes (Step.starts Subsystem.Dispatcher) Step.isTransportStart
        (mainAction env fl a).trace ∧
      Precedes (Step.starts Subsystem.Event) Step.isTransportStart
        (mainAction env fl a).trace) := by
  have hpre : [Step.SetPort a.webserver fl.port, Step.SetIP a.webserver fl.ip,
      Step.SetBindings a.webserver a.bindings] <+: (mainAction env fl a).trace := by
    simp only [mainAction]
    rw [bringUp_trace]
    refine List.IsPrefix.trans ?_ (List.prefix_append _ _)
    obtain ⟨port, ip, sl, dm⟩ := fl
    cases sl <;> cases dm <;> exact ⟨_, rfl⟩
  refine ⟨hpre, prefix_before Step.isStart _ ?_ _ hpre, ?_⟩
  · intro x hx
    simp only [List.mem_cons, List.mem_singleton, List.not_mem_nil, or_false] at hx
    rcases hx with rfl | rfl | rfl <;> rfl
  simp only [← precedesB_iff]
  obtain ⟨port, ip, sl, dm⟩ := fl
  cases sl <;> cases dm <;>
    refine bringUp_cases (fun o =>
      o.trace.filter Step.isTransportConfig = _ ∧
      (∀ b ∈ o.trace.filterMap Step.bindingRegistry, b = a.bindings) ∧
      (o.trace.any Step.isTransportStart = true →
        o.trace.filterMap Step.transportArgs =
          [(a.webserver, env.NewDispatcher.1, env.NewEvent.1)] ∧
        env.NewDispatcher.2 = none ∧ env.NewEvent.2 = none ∧
        o.trace.filterMap Step.startedDispatcher = [env.NewDispatcher.1] ∧
        o.trace.filterMap Step.startedEvent = [env.NewEvent.1] ∧
        precedesB (Step.starts Subsystem.Dispatcher) Step.isTransportStart o.trace = true ∧
        precedesB (Step.starts Subsystem.Event) Step.isTransportStart o.trace = true))
      env a _ ?_ ?_ ?_ ?_ ?_ ?_ ?_ ?_ <;>
    intros <;>
    refine ⟨rfl, forall_mem_eq_of_subsingleton _ _ (by first | exact Or.inl rfl | exact Or.inr rfl),
      fun h => ?_⟩ <;>
    first
    | exact absurd h Bool.false_ne_true
    | exact ⟨rfl, by assumption, by assumption, rfl, rfl, rfl, rfl⟩

/-- C8, at collaborators that all succeed, with the default port and address. -/
theorem transport_wiring_witness :
    (mainAction sampleEnv {} sampleApp).trace.filterMap Step.transportArgs =
      [(⟨14⟩, ⟨33⟩, ⟨35⟩)] ∧
    (mainAction sampleEnv {} sampleApp).trace.filterMap Step.startedDispatcher = [⟨33⟩] ∧
    (mainAction sampleEnv {} sampleApp).trace.filterMap Step.startedEvent = [⟨35⟩] :=
  have h := (transport_wiring sampleEnv {} sampleApp).2.2.2.2 (by decide)
  ⟨h.1, h.2.2.2.1, h.2.2.2.2.1⟩

/-! ## Start results and stopping -/

/-- C5, as the code has it: the value returned by a subsystem's `Start` is
discarded.  The result of the main action is the first error among the six
constructors and `webserver.Start`, whatever the `Start` calls return, and
when the six constructors succeed all five subsystems are started, each
`Start` returning what the collaborator gave, and the transport is started. -/
theorem start_result_discarded (env : Collaborators) (fl : Flags) (a : App) :
    (mainAction env fl a).ret = env.firstError ∧
    (∀ sr, (mainAction { env with StartResult := sr } fl a).ret = (mainAction env fl a).ret) ∧
    ((∀ c, env.ctorError c = none) →
      (mainAction env fl a).trace.filterMap Step.startResult =
        bringUpOrder.map (fun s => (s, env.StartResult s)) ∧
      (mainAction env fl a).trace.any Step.isTransportStart = true ∧
      (mainAction env fl a).ret = env.webserverStart) := by
  refine ⟨bringUp_ret _ _ _, fun sr => ?_, ?_⟩
  · simp only [mainAction, bringUp_ret]
    rfl
  · rw [allCtors_iff]
    obtain ⟨port, ip, sl, dm⟩ := fl
    cases sl <;> cases dm <;>
      refine bringUp_cases (fun o =>
        (env.NewRuntime.2 = none ∧ env.NewLog.2 = none ∧ env.NewDispatcher.2 = none ∧
          env.NewBinding.2 = none ∧ env.NewEvent.2 = none ∧ env.NewCall.2 = none) →
        o.trace.filterMap Step.startResult =
          bringUpOrder.map (fun s => (s, env.StartResult s)) ∧
        o.trace.any Step.isTransportStart = true ∧
        o.ret = env.webserverStart)
        env a _ ?_ ?_ ?_ ?_ ?_ ?_ ?_ ?_ <;>
      intros <;> rename_i hs <;> intro h <;>
      first
      | exact ⟨rfl, rfl, hs.symm⟩
      | (exfalso; simp_all)

/-- C5, at collaborators that all succeed except that the Logging
subsystem's `Start` returns an error. -/
theorem start_result_discarded_witness :
    (mainAction logStartFails {} sampleApp).trace.filterMap Step.startResult =
      [(Subsystem.Logging, some ⟨"log start failed"⟩), (Subsystem.Dispatcher, none),
       (Subsystem.Binding, none), (Subsystem.Event, none), (Subsystem.Call, none)] ∧
    (mainAction logStartFails {} sampleApp).trace.any Step.isTransportStart = true ∧
    (mainAction logStartFails {} sampleApp).ret = none :=
  (start_result_discarded logStartFails {} sampleApp).2.2 (by intro c; cases c <;> rfl)

/-- C5 as stated fails: the Logging subsystem's `Start` returns an error, yet
the bring-up goes on through the other four subsystems and the transport
start, and the main action returns `nil`. -/
theorem start_error_not_fatal :
    (Subsystem.Logging, some ⟨"log start failed"⟩) ∈
      (mainAction logStartFails {} sampleApp).trace.filterMap Step.startResult ∧
    startedSubsystems (mainAction logStartFails {} sampleApp).trace = bringUpOrder ∧
    (mainAction logStartFails {} sampleApp).trace.any Step.isTransportStart = true ∧
    (mainAction logStartFails {} sampleApp).ret = none := by
  decide

/-- C6, as the code has it: the main action never calls `Stop`, on a
subsystem or on the bus, so a failure after some subsystems were started
leaves them started when the error is returned. -/
theorem nothing_stopped (env : Collaborators) (fl : Flags) (a : App) :
    (mainAction env fl a).trace.any Step.isStop = false ∧
    stoppedSubsystems (mainAction env fl a).trace = [] := by
  obtain ⟨port, ip, sl, dm⟩ := fl
  cases sl <;> cases dm <;>
    refine bringUp_cases (fun o => o.trace.any Step.isStop = false ∧
      stoppedSubsystems o.trace = [])
      env a _ ?_ ?_ ?_ ?_ ?_ ?_ ?_ ?_ <;>
    intros <;> exact ⟨rfl, rfl⟩

/-- C6 as stated fails: the Dispatcher constructor fails after the Logging
subsystem was started; the main action returns the error and Logging has not
been stopped. -/
theorem no_rollback_on_failure :
    startedSubsystems (mainAction dispatcherFails {} sampleApp).trace = [Subsystem.Logging] ∧
    (mainAction dispatcherFails {} sampleApp).ret = some ⟨"no dispatcher"⟩ ∧
    stoppedSubsystems (mainAction dispatcherFails {} sampleApp).trace = [] ∧
    stoppedSubsystems (mainAction dispatcherFails {} sampleApp).trace ≠
      (startedSubsystems (mainAction dispatcherFails {} sampleApp).trace).reverse := by
  decide

end Wails
